import Mathlib

/-!
Verification of the tiny_coro M:N coroutine scheduler core.

This file gives a shallow embedding, in Lean 4, of the parts of the
runtime that the specification's claims talk about:

* `task.h`       — the reference-counted task handle (`TaskH`, and the
                   reference-count ledger `RC`);
* `scheduler.h`  — `Scheduler::spawn`, the reactor's timer fire path and
                   `AsyncSleep::await_suspend`;
* `socket.h`     — the I/O awaiters' `await_suspend` (refcount increment);
* `channel.h`    — the channel state machine (`close`, `SendAwaiter`,
                   `RecvAwaiter`);
* `poller.h`     — the Linux (epoll/eventfd) and kqueue `wait` dispatch;
* `queue.h`      — the Chase–Lev `StealQueue::pop` owner protocol;
* `ebr.h`        — `EbrManager::retire` and `EbrManager::try_advance`;
* `async_mutex.h`— `AsyncMutex::unlock` and `LockAwaiter::await_suspend`.

Mutation is modelled by explicit state passing; coroutine handles and
raw promise pointers are modelled as natural numbers (`0` encodes the
null pointer where a null is possible); side effects (spawning a task,
invoking a callback, freeing a retired pointer) are returned as lists,
in the order the source performs them.  Concurrency oracles (the single
contended CAS in `pop`) are passed as explicit boolean parameters.
-/

namespace TinyCoro

/-! ## Task handle (`src/include/task.h`) -/

/-- A `Task`: just the `std::coroutine_handle<Promise> handle` member,
`none` for a null handle.  The promise's reference count lives in a
separate heap (`RefCounts`) keyed by promise address. -/
structure TaskH where
  handle : Option Nat
deriving DecidableEq

/-- `Task()` — the default constructor: null handle. -/
def TaskH.empty : TaskH := ⟨none⟩

/-- `Task::detach` (task.h:73-77): `void* ptr = handle ? handle.address()
: nullptr; handle = nullptr; return ptr;`.  Returns the raw address and
the task with its handle nulled.  The body contains no operation on
`ref_count`. -/
def TaskH.detach (t : TaskH) : Option Nat × TaskH :=
  (t.handle, ⟨none⟩)

/-- `Task::from_address` (task.h:89-92): `if (!ptr) return Task(); return
Task(from_address(ptr), AdoptTag{});`.  The `AdoptTag` constructor
(task.h:42) stores the handle and performs no `ref_count` operation. -/
def TaskH.from_address (p : Option Nat) : TaskH :=
  match p with
  | none => TaskH.empty
  | some a => ⟨some a⟩

/-- The promise reference counts, keyed by promise address. -/
abbrev RefCounts := Nat → Int

/-- `Task::detach` threaded through the reference-count heap: the source
body touches only `handle`, so the heap is passed through unchanged. -/
def TaskH.detachRC (t : TaskH) (rc : RefCounts) : (Option Nat × TaskH) × RefCounts :=
  (t.detach, rc)

/-- `Task::from_address` threaded through the reference-count heap: the
adopting constructor performs no count operation. -/
def TaskH.from_addressRC (p : Option Nat) (rc : RefCounts) : TaskH × RefCounts :=
  (TaskH.from_address p, rc)

/-- The copy constructor (task.h:45-47): duplicates the handle and does
`ref_count.fetch_add(1)` on the shared promise. -/
def TaskH.copyRC (t : TaskH) (rc : RefCounts) : TaskH × RefCounts :=
  match t.handle with
  | none => (⟨none⟩, rc)
  | some a => (⟨some a⟩, fun x => if x = a then rc x + 1 else rc x)

/-- `Task::~Task` / `Task::dec_ref` (task.h:61-67): decrement the count
(destroying the frame when the old value was 1 — destruction itself is
tracked by the `RC` ledger below, not by this heap). -/
def TaskH.dropRC (t : TaskH) (rc : RefCounts) : RefCounts :=
  match t.handle with
  | none => rc
  | some a => fun x => if x = a then rc x - 1 else rc x

/-! ## Reference-count ledger for one promise (claim C1)

For the reactor registration/fire cycle we track a single promise's
count together with how many times `handle.destroy()` has run. -/

/-- One promise's reference count and the number of `handle.destroy()`
calls made on it so far. -/
structure RC where
  count : Int
  destroys : Nat
deriving DecidableEq

/-- `ref_count.fetch_add(1)` on the promise. -/
def RC.fetchAdd (r : RC) : RC := { r with count := r.count + 1 }

/-- `Task::dec_ref` (task.h:63-67): `if (fetch_sub(1) == 1)
handle.destroy();` — decrement, destroying when the old value was 1. -/
def RC.decRef (r : RC) : RC :=
  if r.count = 1 then { count := r.count - 1, destroys := r.destroys + 1 }
  else { r with count := r.count - 1 }

/-- `AsyncReadAwaiter::await_suspend` (socket.h:39-43) — likewise the
write and accept awaiters: `h.promise().ref_count.fetch_add(1);
reactor_->register_read(fd_, h.address());`.  The refcount effect is the
single increment. -/
def ioAwaitSuspendRC (r : RC) : RC := r.fetchAdd

/-- `AsyncSleep::await_suspend` (scheduler.h:291-294): computes the
expiry and calls `sched_.reactor()->add_timer(expiry, h)`.  The body
contains no `ref_count` operation. -/
def sleepAwaitSuspendRC (r : RC) : RC := r

/-- The suspending worker's `std::optional<Task>` going out of scope
after `task->resume()` returned (scheduler.h:252-264): one `dec_ref`. -/
def workerDropRC (r : RC) : RC := r.decRef

/-- The reactor firing a registration (scheduler.h:178-184 for I/O,
202-211 for timers): `spawn(Task::from_address(p))` — adopt (no count
operation), detach into the global queue (no count operation). -/
def reactorFireRC (r : RC) : RC := r

/-- The spawn pipeline consuming the fired handle: a worker pops the
task from the global queue (adopt, no count operation), resumes it to
completion, and drops its `Task` — one `dec_ref`. -/
def pipelineDropRC (r : RC) : RC := r.decRef

/-- The whole registration/fire cycle for an I/O awaiter: the awaiter
increments and registers, the suspending worker drops its handle, the
reactor fires, the spawn pipeline runs the task to completion and
drops. -/
def ioCycleRC (r : RC) : RC :=
  pipelineDropRC (reactorFireRC (workerDropRC (ioAwaitSuspendRC r)))

/-- The whole registration/fire cycle for a `sleep_for` timer: identical
except that `AsyncSleep::await_suspend` performs no increment. -/
def timerCycleRC (r : RC) : RC :=
  pipelineDropRC (reactorFireRC (workerDropRC (sleepAwaitSuspendRC r)))

/-! ## Scheduler (`src/include/scheduler.h`) -/

/-- The scheduler state visible to `spawn`: the global queue of raw
promise pointers, the round-robin `next` counter, the worker count, and
the trace of workers woken (by index), in order. -/
structure SchedState where
  globalQueue : List Nat
  nextCounter : Nat
  numWorkers : Nat
  wokenWorkers : List Nat
deriving DecidableEq

/-- `Scheduler::spawn` (scheduler.h:112-120): `if (void* ptr =
t.detach()) { global_queue_.push_ptr(ptr); if (!workers_.empty())
workers_[next.fetch_add(1) % workers_.size()]->wake(); }`.
`fetch_add(1)` returns the old counter value, which selects the woken
worker. -/
def Scheduler.spawn (s : SchedState) (t : TaskH) : SchedState :=
  match (TaskH.detach t).1 with
  | none => s
  | some p =>
      let s1 := { s with globalQueue := s.globalQueue ++ [p] }
      if s1.numWorkers = 0 then s1
      else
        { s1 with
          nextCounter := s1.nextCounter + 1
          wokenWorkers := s1.wokenWorkers ++ [s1.nextCounter % s1.numWorkers] }

/-! ## Channel (`src/include/channel.h`)

Values have an arbitrary type `α`; waiter handles are promise
addresses.  A `SenderWaiter` in the source stores `{handle, value_ptr}`
— the handle and a pointer to the value in the suspended `SendAwaiter`;
it stores no pointer to the awaiter's `result` field.  A `RecvWaiter`
stores `{handle, result_ptr}`; we record only the handle and report
"none written through `result_ptr`" as an effect where it happens. -/

/-- `Channel::SenderWaiter` (channel.h:162-165): the suspended
coroutine's handle and (the value behind) its `value_ptr`. -/
structure SendW (α : Type) where
  handle : Nat
  value : α
deriving DecidableEq

/-- `Channel::RecvWaiter` (channel.h:167-170): the suspended coroutine's
handle (its `result_ptr` slot is tracked by effects). -/
structure RecvW where
  handle : Nat
deriving DecidableEq

/-- The channel's mutable state (channel.h:172-179): capacity, closed
flag, buffer, and the two FIFO waiter queues (front = head). -/
structure ChanState (α : Type) where
  capacity : Nat
  closed : Bool
  buffer : List α
  send_waiters : List (SendW α)
  recv_waiters : List RecvW
deriving DecidableEq

/-- `Channel::close` (channel.h:22-40): if already closed, return; else
set `closed_`, then drain `send_waiters_` spawning each handle, then
drain `recv_waiters_` writing `std::nullopt` through each `result_ptr`
and spawning each handle.  Result: the new state, the sender handles
spawned, and the receiver handles spawned (each of which had `none`
written to its result slot).  Note that draining a sender waiter writes
nothing anywhere except the spawn: the `SenderWaiter` carries no
pointer to the awaiter's `result` field. -/
def Channel.close {α : Type} (c : ChanState α) : ChanState α × List Nat × List Nat :=
  if c.closed then (c, [], [])
  else
    ({ c with closed := true, send_waiters := [], recv_waiters := [] },
     c.send_waiters.map SendW.handle,
     c.recv_waiters.map RecvW.handle)

/-- The observable outcome of `SendAwaiter::await_suspend`: the new
channel state, whether the coroutine suspended, the value of the
awaiter's `result` field when `await_suspend` returns, the receiver
handle spawned on direct handoff (if any), and the receiver whose
`result_ptr` slot the value was written through (if any). -/
structure SendOutcome (α : Type) where
  chan : ChanState α
  suspended : Bool
  result : Bool
  spawned : Option Nat
  delivered : Option Nat
deriving DecidableEq

/-- `Channel::SendAwaiter::await_suspend` (channel.h:59-94), under the
channel lock: closed ⇒ `result = false`, do not suspend; a receiver
waits ⇒ write the value through its `result_ptr`, spawn it, do not
suspend; buffer below capacity ⇒ push, do not suspend; else push a
`SenderWaiter {h, &value}` and suspend (the `result` field, initialised
`true` at channel.h:51, is untouched on this path). -/
def SendAwaiter.await_suspend {α : Type} (c : ChanState α) (h : Nat) (v : α) :
    SendOutcome α :=
  if c.closed then
    ⟨c, false, false, none, none⟩
  else
    match c.recv_waiters with
    | w :: rest =>
        ⟨{ c with recv_waiters := rest }, false, true, some w.handle, some w.handle⟩
    | [] =>
        if c.buffer.length < c.capacity then
          ⟨{ c with buffer := c.buffer ++ [v] }, false, true, none, none⟩
        else
          ⟨{ c with send_waiters := c.send_waiters ++ [⟨h, v⟩] }, true, true, none, none⟩

/-- `Channel::SendAwaiter::await_resume` (channel.h:96): `return
result;` — the awaiter's `result` field.  The only write to that field
anywhere in the source is the closed-at-entry branch of
`await_suspend`; in particular `Channel::close` has no access to it. -/
def SendAwaiter.await_resume {α : Type} (o : SendOutcome α) : Bool := o.result

/-- The observable outcome of `RecvAwaiter::await_suspend`: the new
channel state, whether the coroutine suspended, the awaiter's `result`
field when it returns without suspending (`none` while suspended), and
the sender handle spawned (if any). -/
structure RecvOutcome (α : Type) where
  chan : ChanState α
  suspended : Bool
  result : Option (Option α)
  spawned : Option Nat
deriving DecidableEq

/-- `Channel::RecvAwaiter::await_suspend` (channel.h:107-152), under the
channel lock: buffer non-empty ⇒ pop the front (and if a sender waits,
move its value into the freed slot at the back and spawn it), do not
suspend; buffer empty but a sender waits (capacity 0) ⇒ take directly
from its `value_ptr` and spawn it, do not suspend; closed ⇒ `result =
none`, do not suspend; else push a `RecvWaiter` and suspend. -/
def RecvAwaiter.await_suspend {α : Type} (c : ChanState α) (h : Nat) :
    RecvOutcome α :=
  match c.buffer with
  | x :: rest =>
      match c.send_waiters with
      | s :: srest =>
          ⟨{ c with buffer := rest ++ [s.value], send_waiters := srest },
           false, some (some x), some s.handle⟩
      | [] =>
          ⟨{ c with buffer := rest }, false, some (some x), none⟩
  | [] =>
      match c.send_waiters with
      | s :: srest =>
          ⟨{ c with send_waiters := srest }, false, some (some s.value), some s.handle⟩
      | [] =>
          if c.closed then
            ⟨c, false, some none, none⟩
          else
            ⟨{ c with recv_waiters := c.recv_waiters ++ [⟨h⟩] }, true, none, none⟩

/-- The channel state invariant of the specification: the buffer holds
at most `capacity` elements; a non-empty buffer excludes receiver
waiters; a below-capacity buffer excludes sender waiters. -/
def ChanInv {α : Type} (c : ChanState α) : Prop :=
  c.buffer.length ≤ c.capacity ∧
  (c.buffer ≠ [] → c.recv_waiters = []) ∧
  (c.buffer.length < c.capacity → c.send_waiters = [])

instance {α : Type} [DecidableEq α] (c : ChanState α) : Decidable (ChanInv c) := by
  unfold ChanInv; infer_instance

/-! ## Poller (`src/include/poller.h`) -/

/-- One delivered epoll event: the `epoll_data` bits that come back with
it, read through the `ptr` member of the union (`0` encodes a null
pointer). -/
structure EpollEvent where
  dataPtr : Nat
deriving DecidableEq

/-- The event the self-wake eventfd delivers on Linux.  The constructor
(poller.h:31-34) registers it with `struct epoll_event ev = {};
ev.events = EPOLLIN | EPOLLET; ev.data.fd = wake_fd_;` — the union is
zero-initialised and then its `fd` member is set, so the `data.ptr`
bits delivered with the event equal the (nonzero) eventfd number. -/
def wakeFdEvent (wakeFd : Nat) : EpollEvent := ⟨wakeFd⟩

/-- The Linux `Poller::wait` dispatch loop (poller.h:74-90): for each
delivered event, `if (events_[i].data.ptr == nullptr)` drain the
eventfd and continue without a callback, else invoke the callback with
`data.ptr`.  Result: the callback invocations, in order. -/
def Poller.waitInvokes (ready : List EpollEvent) : List Nat :=
  ready.filterMap (fun e => if e.dataPtr = 0 then none else some e.dataPtr)

/-- One delivered kqueue event: whether its filter is `EVFILT_USER`, and
its `udata` bits (`0` encodes null). -/
structure KEvent where
  isUser : Bool
  udata : Nat
deriving DecidableEq

/-- The kqueue `Poller::wait` dispatch loop (poller.h:137-156): skip
`EVFILT_USER` events; for the rest invoke the callback when `udata` is
non-null. -/
def Poller.waitInvokesKq (ready : List KEvent) : List Nat :=
  ready.filterMap (fun e =>
    if e.isUser then none
    else if e.udata = 0 then none else some e.udata)

/-! ## Chase–Lev steal deque (`src/include/queue.h`) -/

/-- `StealQueue::Array` (queue.h:40-56): a circular buffer of raw task
pointers; `get(i)` reads `buffer[i & mask]`.  `cap` is a power of two,
so `i & mask` is `i mod cap` (nonnegative, as two's-complement masking
of a `long`), which is Lean's `Int.emod` for positive `cap`. -/
structure DequeArr where
  cap : Nat
  data : Nat → Nat

/-- `Array::get` (queue.h:50). -/
def DequeArr.get (a : DequeArr) (i : Int) : Nat :=
  a.data (i % (a.cap : Int)).toNat

/-- The deque state seen by the owner's `pop`: `top`, `bottom`, and the
current array. -/
structure StealQueueState where
  top : Int
  bottom : Int
  arr : DequeArr

/-- `StealQueue::pop` (queue.h:86-111): `b = bottom - 1; bottom.store(b);
fence; t = top;` then: `t <= b` and `t < b` ⇒ return `get(b)` (bottom
stays decremented); `t == b` ⇒ CAS `top` from `t` to `t+1` — on loss
store `bottom = b+1` and return empty, on success store `bottom = b+1`
and return `get(b)`; `t > b` ⇒ store `bottom = b+1` and return empty.
`casWins` is the oracle for the single contended CAS (a loss means a
concurrent thief advanced `top`; that write belongs to the thief, not
to `pop`). -/
def StealQueue.pop (q : StealQueueState) (casWins : Bool) :
    StealQueueState × Option Nat :=
  let b := q.bottom - 1
  let t := q.top
  if t ≤ b then
    let val := q.arr.get b
    if t = b then
      if casWins then ({ q with top := t + 1, bottom := b + 1 }, some val)
      else ({ q with bottom := b + 1 }, none)
    else ({ q with bottom := b }, some val)
  else ({ q with bottom := b + 1 }, none)

/-- The claim's description of `pop`, written from the specification's
words: decrement `bottom`, load `top`; `top < bottom` ⇒ return the slot
at the decremented `bottom`; `top == bottom` ⇒ race via one CAS on
`top`, restoring `bottom` to its pre-decrement value both on loss
(empty) and after a successful last-element CAS (the value); `top >
bottom` ⇒ restore `bottom`, return empty. -/
def StealQueue.popClaim (q : StealQueueState) (casWins : Bool) :
    StealQueueState × Option Nat :=
  let b := q.bottom - 1
  let t := q.top
  if t < b then ({ q with bottom := b }, some (q.arr.get b))
  else if t = b then
    if casWins then ({ q with top := t + 1, bottom := q.bottom }, some (q.arr.get b))
    else ({ q with bottom := q.bottom }, none)
  else ({ q with bottom := q.bottom }, none)

/-! ## EBR reclaimer (`src/include/ebr.h`) -/

/-- `EbrManager::LocalState` (ebr.h:53-58): the active flag, the
observed epoch, the three retire bins (each a list of retired pointer
ids, deleters elided — freeing is reported as an effect), and the
retirement counter. -/
structure LocalEbr where
  active : Bool
  epoch : Nat
  bins0 : List Nat
  bins1 : List Nat
  bins2 : List Nat
  op_count : Nat
deriving DecidableEq

/-- `retire_bins[i % 3]` read. -/
def LocalEbr.binAt (t : LocalEbr) (i : Nat) : List Nat :=
  match i % 3 with
  | 0 => t.bins0
  | 1 => t.bins1
  | _ => t.bins2

/-- `retire_bins[i % 3]` write. -/
def LocalEbr.setBinAt (t : LocalEbr) (i : Nat) (l : List Nat) : LocalEbr :=
  match i % 3 with
  | 0 => { t with bins0 := l }
  | 1 => { t with bins1 := l }
  | _ => { t with bins2 := l }

/-- Replace the element at index `i` of a list (identity when out of
range) — used to update one registered thread's `LocalState` inside the
manager's thread list. -/
def modifyAt {α : Type} (l : List α) (i : Nat) (f : α → α) : List α :=
  match l, i with
  | [], _ => []
  | x :: xs, 0 => f x :: xs
  | x :: xs, n + 1 => x :: modifyAt xs n f

/-- The manager state (ebr.h:9-13): the global epoch and the registered
threads' local states (list order = registration order). -/
structure EbrState where
  global_epoch : Nat
  threads : List LocalEbr
deriving DecidableEq

/-- `EbrManager::try_advance` (ebr.h:15-44): read the global epoch; scan
all registered threads — if any is active with an epoch different from
the global, return; else store `next = global + 1` and, for every
registered thread, run the deleters of and clear its bin at index
`(next + 1) % 3`.  Result: the new state and the pointers freed, in
scan order. -/
def EbrManager.try_advance (s : EbrState) : EbrState × List Nat :=
  let g := s.global_epoch
  if s.threads.all (fun t => !t.active || t.epoch == g) then
    let next := g + 1
    let idx := (next + 1) % 3
    ({ global_epoch := next,
       threads := s.threads.map (fun t => t.setBinAt idx []) },
     (s.threads.map (fun t => t.binAt idx)).flatten)
  else (s, [])

/-- `EbrManager::retire` (ebr.h:87-100), called by the thread at index
`i` of the manager's list: append `ptr` to the caller's bin at
`global_epoch % 3`; increment the caller's `op_count`; if the counter
now exceeds 64, reset it to 0 and call `try_advance`.  Result: the new
state, whether advancement was attempted, and the pointers freed. -/
def EbrManager.retire (s : EbrState) (i : Nat) (ptr : Nat) :
    EbrState × Bool × List Nat :=
  match s.threads.get? i with
  | none => (s, false, [])
  | some t =>
      let e := s.global_epoch
      let newBin := t.binAt e ++ [ptr]
      let cnt := t.op_count + 1
      if cnt > 64 then
        let t3 := { t.setBinAt e newBin with op_count := 0 }
        let s1 := { s with threads := modifyAt s.threads i (fun _ => t3) }
        let r := EbrManager.try_advance s1
        (r.1, true, r.2)
      else
        ({ s with threads := modifyAt s.threads i (fun _ =>
            { t.setBinAt e newBin with op_count := cnt }) }, false, [])

/-- Iterate `n` retirements by thread 0 (retiring distinct pointers),
counting how many of them attempted advancement. -/
def retireN (s : EbrState) : Nat → EbrState × Nat
  | 0 => (s, 0)
  | n + 1 =>
      let r := EbrManager.retire s 0 n
      let rest := retireN r.1 n
      (rest.1, rest.2 + (if r.2.1 then 1 else 0))

/-! ## Async mutex (`src/include/async_mutex.h`) -/

/-- The mutex state (async_mutex.h:107-110): the logical `locked_` flag
and the FIFO waiter queue of coroutine handles (front = head). -/
structure AsyncMutexState where
  locked : Bool
  waiters : List Nat
deriving DecidableEq

/-- `AsyncMutex::unlock` (async_mutex.h:87-104), under the internal
lock: if no one waits, `locked_ = false`; else pop the head waiter and
spawn it, leaving `locked_` untouched.  Result: the new state and the
handle spawned (if any). -/
def AsyncMutex.unlock (m : AsyncMutexState) : AsyncMutexState × Option Nat :=
  match m.waiters with
  | [] => ({ m with locked := false }, none)
  | h :: rest => ({ m with waiters := rest }, some h)

/-- `AsyncMutex::LockAwaiter::await_suspend` (async_mutex.h:58-72),
under the internal lock: if the lock became free, seize it and cancel
suspension; else push the handle at the back of the waiter queue and
suspend.  Result: the new state and whether the coroutine suspended. -/
def LockAwaiter.await_suspend (m : AsyncMutexState) (h : Nat) :
    AsyncMutexState × Bool :=
  if !m.locked then ({ m with locked := true }, false)
  else ({ m with waiters := m.waiters ++ [h] }, true)

/-! ## Theorems -/

/-- Claim C1.  Refuted on the timer path.  Starting from a promise with
reference count 1 (held by the worker that resumes the task into its
suspension), `AsyncSleep::await_suspend` registers the raw handle with
`add_timer` without any reference-count increment — unlike the I/O
awaiters, which do `fetch_add(1)` before registering.  Consequently the
worker's handle drop after `resume()` returns destroys the promise
while the timer still holds its address (`destroys = 1` already before
the fire), and the full registration/fire cycle is unbalanced (final
count `-1`): the adoption at fire transfers a reference that was never
added.  The same cycle for an I/O registration is balanced (final count
`0`, destroyed exactly once). -/
theorem c1_sleep_registration_unbalanced :
    sleepAwaitSuspendRC ⟨1, 0⟩ = ⟨1, 0⟩ ∧
    (workerDropRC (sleepAwaitSuspendRC ⟨1, 0⟩)).destroys = 1 ∧
    timerCycleRC ⟨1, 0⟩ = ⟨-1, 1⟩ ∧
    ioAwaitSuspendRC ⟨1, 0⟩ = ⟨2, 0⟩ ∧
    ioCycleRC ⟨1, 0⟩ = ⟨0, 1⟩ := by decide

/-- Claim C2.  Refuted on the suspended-sender path.  On a capacity-0
channel a send suspends (queueing a `SenderWaiter` that carries only
the handle and the value pointer); a subsequent `close` spawns that
sender, never delivers its value (the buffer stays empty and no
receiver was handed the value), and has no access to the awaiter's
`result` field — so the awakened send's `await_resume` returns the
field's initial value `true`, not the `false` the claim requires. -/
theorem c2_close_leaves_sender_result_true :
    (SendAwaiter.await_suspend (⟨0, false, [], [], []⟩ : ChanState Nat) 7 42).suspended
      = true ∧
    (SendAwaiter.await_suspend (⟨0, false, [], [], []⟩ : ChanState Nat) 7 42).chan.send_waiters
      = [⟨7, 42⟩] ∧
    (Channel.close
      (SendAwaiter.await_suspend (⟨0, false, [], [], []⟩ : ChanState Nat) 7 42).chan).2.1
      = [7] ∧
    (Channel.close
      (SendAwaiter.await_suspend (⟨0, false, [], [], []⟩ : ChanState Nat) 7 42).chan).1.buffer
      = [] ∧
    SendAwaiter.await_resume
      (SendAwaiter.await_suspend (⟨0, false, [], [], []⟩ : ChanState Nat) 7 42)
      = true := by decide

/-- Claim C3.  Refuted on the Linux path.  The constructor registers the
self-wake eventfd with `ev.data.fd = wake_fd_` on a zero-initialised
event, so the `data.ptr` bits delivered when it fires equal the eventfd
number — which is nonzero, since the epoll fd is already open when
`eventfd` allocates the lowest free descriptor.  The dispatch loop
detects the self-wake by `data.ptr == nullptr`, which therefore never
matches: the callback is invoked with the fd bits as if they were a
task pointer (here eventfd number 4, shown alongside a genuine I/O
registration with user pointer 1000).  The kqueue path does consume its
`EVFILT_USER` event silently. -/
theorem c3_linux_self_wake_invokes_callback :
    Poller.waitInvokes [wakeFdEvent 4] = [4] ∧
    Poller.waitInvokes [wakeFdEvent 4, ⟨1000⟩] = [4, 1000] ∧
    Poller.waitInvokesKq [⟨true, 0⟩] = [] := by decide

/-- Claim C4.  Confirmed: the owner's `pop` coincides, on every state
and every outcome of the single contended CAS, with the claim's
step-by-step description — value at the decremented `bottom` when
`top < bottom`; CAS race at `top == bottom` with `bottom` restored to
its pre-decrement value both on loss and after the successful
last-element CAS; `bottom` restored and empty returned when
`top > bottom`. -/
theorem c4_pop_matches_claim (q : StealQueueState) (casWins : Bool) :
    StealQueue.pop q casWins = StealQueue.popClaim q casWins := by
  simp only [StealQueue.pop, StealQueue.popClaim]
  have hb : q.bottom - 1 + 1 = q.bottom := by omega
  split_ifs <;> first
    | rfl
    | (exfalso; omega)
    | (rw [hb])

/-- Claim C8.  Confirmed: `detach` on a task with a non-null handle
returns the raw promise address and nulls the handle, passing the
reference-count heap through untouched (its body contains no count
operation), and `from_address` adopts the raw pointer back into a
handle, likewise without touching the heap; the composition restores
the original handle with the counts exactly as before `detach`. -/
theorem c8_detach_adopt_preserves_refcount (t : TaskH) (rc : RefCounts) (a : Nat)
    (h : t.handle = some a) :
    (t.detachRC rc).1.1 = some a ∧
    (t.detachRC rc).1.2 = TaskH.empty ∧
    (t.detachRC rc).2 = rc ∧
    TaskH.from_addressRC (t.detachRC rc).1.1 (t.detachRC rc).2 = (⟨some a⟩, rc) := by
  cases t
  simp_all [TaskH.detachRC, TaskH.detach, TaskH.from_addressRC, TaskH.from_address,
    TaskH.empty]

/-- Witness for claim C8's theorem at a concrete task and heap. -/
theorem c8_detach_adopt_witness :
    (((⟨some 5⟩ : TaskH).detachRC (fun _ => 2)).1.1 = some 5) ∧
    (((⟨some 5⟩ : TaskH).detachRC (fun _ => 2)).1.2 = TaskH.empty) ∧
    (((⟨some 5⟩ : TaskH).detachRC (fun _ => 2)).2 = (fun _ => (2 : Int))) ∧
    TaskH.from_addressRC (((⟨some 5⟩ : TaskH).detachRC (fun _ => 2)).1.1)
        (((⟨some 5⟩ : TaskH).detachRC (fun _ => 2)).2)
      = (⟨some 5⟩, fun _ => 2) :=
  c8_detach_adopt_preserves_refcount ⟨some 5⟩ (fun _ => 2) 5 rfl

/-- Claim C9.  Confirmed: spawning a task whose handle is null is a
complete no-op — `detach` returns the null pointer, the guarding `if`
fails, and the scheduler state (global queue, round-robin counter, wake
trace) is returned unchanged. -/
theorem c9_spawn_empty_noop (s : SchedState) :
    Scheduler.spawn s TaskH.empty = s ∧ (TaskH.detach TaskH.empty).1 = none :=
  ⟨rfl, rfl⟩

/-- Claim C10.  Confirmed: `close` on an already-closed channel returns
at the `if (closed_) return;` guard, leaving the entire state (buffer,
waiter queues, flag) unchanged and spawning nobody; hence a second
`close` — for any starting state — spawns nobody, so waiters are woken
by at most one `close` over the channel's lifetime. -/
theorem c10_close_idempotent {α : Type} (c : ChanState α) (h : c.closed = true) :
    Channel.close c = (c, [], []) ∧
    Channel.close (Channel.close c).1 = ((Channel.close c).1, [], []) := by
  constructor
  · simp [Channel.close, h]
  · simp [Channel.close, h]

/-- Witness for claim C10's theorem at a concrete closed channel. -/
theorem c10_close_idempotent_witness :
    Channel.close (⟨1, true, [2], [], []⟩ : ChanState Nat)
      = (⟨1, true, [2], [], []⟩, [], []) ∧
    Channel.close (Channel.close (⟨1, true, [2], [], []⟩ : ChanState Nat)).1
      = ((Channel.close (⟨1, true, [2], [], []⟩ : ChanState Nat)).1, [], []) :=
  c10_close_idempotent ⟨1, true, [2], [], []⟩ rfl

/-- Helper: `SendAwaiter::await_suspend` never writes the `closed_`
flag. -/
theorem send_awaitSuspend_closed {α : Type} (c : ChanState α) (h : Nat) (v : α) :
    (SendAwaiter.await_suspend c h v).chan.closed = c.closed := by
  unfold SendAwaiter.await_suspend
  by_cases hc : c.closed
  · rw [if_pos hc]
  · rw [if_neg hc]
    cases hr : c.recv_waiters
    · split_ifs <;> rfl
    · rfl

/-- Helper: `RecvAwaiter::await_suspend` never writes the `closed_`
flag. -/
theorem recv_awaitSuspend_closed {α : Type} (c : ChanState α) (h : Nat) :
    (RecvAwaiter.await_suspend c h).chan.closed = c.closed := by
  unfold RecvAwaiter.await_suspend
  cases hb : c.buffer
  · cases hs : c.send_waiters
    · split_ifs <;> rfl
    · rfl
  · cases hs : c.send_waiters <;> rfl

/-- Helper: after `Channel::close` the `closed_` flag is set. -/
theorem close_closed {α : Type} (c : ChanState α) :
    (Channel.close c).1.closed = true := by
  unfold Channel.close
  split_ifs with hc
  · exact hc
  · rfl

/-- Helper: `SendAwaiter::await_suspend` preserves the channel
invariant. -/
theorem chanInv_send {α : Type} {c : ChanState α} (hinv : ChanInv c) (h : Nat) (v : α) :
    ChanInv (SendAwaiter.await_suspend c h v).chan := by
  obtain ⟨h1, h2, h3⟩ := hinv
  unfold SendAwaiter.await_suspend
  by_cases hc : c.closed
  · rw [if_pos hc]; exact ⟨h1, h2, h3⟩
  · rw [if_neg hc]
    cases hr : c.recv_waiters with
    | nil =>
        dsimp only
        by_cases hlen : c.buffer.length < c.capacity
        · rw [if_pos hlen]
          refine ⟨?_, ?_, ?_⟩
          · simpa using hlen
          · intro _; rfl
          · intro hl
            apply h3
            simp only [List.length_append, List.length_cons, List.length_nil] at hl
            omega
        · rw [if_neg hlen]
          exact ⟨h1, fun _ => rfl, fun hl => absurd hl hlen⟩
    | cons w rest =>
        dsimp only
        refine ⟨h1, ?_, h3⟩
        intro hb
        have h4 := h2 hb
        rw [hr] at h4
        exact absurd h4 (by simp)

/-- Helper: `RecvAwaiter::await_suspend` preserves the channel
invariant. -/
theorem chanInv_recv {α : Type} {c : ChanState α} (hinv : ChanInv c) (h : Nat) :
    ChanInv (RecvAwaiter.await_suspend c h).chan := by
  obtain ⟨h1, h2, h3⟩ := hinv
  unfold RecvAwaiter.await_suspend
  cases hb : c.buffer with
  | nil =>
      cases hs : c.send_waiters with
      | nil =>
          dsimp only
          by_cases hc : c.closed
          · rw [if_pos hc]; exact ⟨h1, h2, h3⟩
          · rw [if_neg hc]
            exact ⟨Nat.zero_le _, fun hbne => absurd rfl hbne, fun _ => rfl⟩
      | cons s srest =>
          dsimp only
          have hcap0 : c.capacity = 0 := by
            by_contra hne
            have hl : c.buffer.length < c.capacity := by
              rw [hb]
              simpa using Nat.pos_of_ne_zero hne
            rw [h3 hl] at hs
            exact absurd hs (by simp)
          refine ⟨Nat.zero_le _, fun hbne => absurd rfl hbne, ?_⟩
          intro hl
          exfalso
          rw [hcap0] at hl
          simp at hl
  | cons x rest =>
      have hlen1 : rest.length + 1 ≤ c.capacity := by
        have := h1
        rw [hb] at this
        simpa using this
      cases hs : c.send_waiters with
      | nil =>
          dsimp only
          refine ⟨?_, ?_, fun _ => rfl⟩
          · show rest.length ≤ c.capacity
            omega
          · intro _
            apply h2
            rw [hb]
            simp
      | cons s srest =>
          dsimp only
          have hfull : ¬ (c.buffer.length < c.capacity) := by
            intro hl
            rw [h3 hl] at hs
            exact absurd hs (by simp)
          rw [hb] at hfull
          simp only [List.length_cons] at hfull
          refine ⟨?_, ?_, ?_⟩
          · show (rest ++ [s.value]).length ≤ c.capacity
            simp only [List.length_append, List.length_cons, List.length_nil]
            omega
          · intro _
            apply h2
            rw [hb]
            simp
          · intro hl
            exfalso
            simp only [List.length_append, List.length_cons, List.length_nil] at hl
            omega

/-- Helper: `Channel::close` preserves the channel invariant. -/
theorem chanInv_close {α : Type} {c : ChanState α} (hinv : ChanInv c) :
    ChanInv (Channel.close c).1 := by
  obtain ⟨h1, h2, h3⟩ := hinv
  unfold Channel.close
  split_ifs with hc
  · exact ⟨h1, h2, h3⟩
  · exact ⟨h1, fun _ => rfl, fun _ => rfl⟩

/-- Claim C6.  Confirmed: each channel operation — `send`'s
`await_suspend`, `recv`'s `await_suspend`, and `close` — preserves the
state invariant (buffer within capacity; non-empty buffer excludes
receiver waiters; below-capacity buffer excludes sender waiters), and
the closed flag is monotonic: the awaiters never write it and `close`
leaves it `true`. -/
theorem c6_channel_invariant_preserved {α : Type} (c : ChanState α)
    (hinv : ChanInv c) (h : Nat) (v : α) :
    ChanInv (SendAwaiter.await_suspend c h v).chan ∧
    ChanInv (RecvAwaiter.await_suspend c h).chan ∧
    ChanInv (Channel.close c).1 ∧
    (SendAwaiter.await_suspend c h v).chan.closed = c.closed ∧
    (RecvAwaiter.await_suspend c h).chan.closed = c.closed ∧
    (Channel.close c).1.closed = true :=
  ⟨chanInv_send hinv h v, chanInv_recv hinv h, chanInv_close hinv,
   send_awaitSuspend_closed c h v, recv_awaitSuspend_closed c h, close_closed c⟩

/-- Witness for claim C6's theorem at a concrete channel state. -/
theorem c6_channel_invariant_witness :
    ChanInv (SendAwaiter.await_suspend (⟨1, false, [2], [⟨8, 5⟩], []⟩ : ChanState Nat) 3 9).chan ∧
    ChanInv (RecvAwaiter.await_suspend (⟨1, false, [2], [⟨8, 5⟩], []⟩ : ChanState Nat) 3).chan ∧
    ChanInv (Channel.close (⟨1, false, [2], [⟨8, 5⟩], []⟩ : ChanState Nat)).1 ∧
    (SendAwaiter.await_suspend (⟨1, false, [2], [⟨8, 5⟩], []⟩ : ChanState Nat) 3 9).chan.closed
      = (⟨1, false, [2], [⟨8, 5⟩], []⟩ : ChanState Nat).closed ∧
    (RecvAwaiter.await_suspend (⟨1, false, [2], [⟨8, 5⟩], []⟩ : ChanState Nat) 3).chan.closed
      = (⟨1, false, [2], [⟨8, 5⟩], []⟩ : ChanState Nat).closed ∧
    (Channel.close (⟨1, false, [2], [⟨8, 5⟩], []⟩ : ChanState Nat)).1.closed = true :=
  c6_channel_invariant_preserved ⟨1, false, [2], [⟨8, 5⟩], []⟩ (by decide) 3 9

/-- Claim C7.  Confirmed: under the internal lock and with the mutex
held, `unlock` with a non-empty waiter queue pops exactly the head (the
earliest enqueued, since `await_suspend` pushes at the back — strict
FIFO), spawns it, and leaves `locked` true (baton passing); with an
empty queue it sets `locked` false. -/
theorem c7_unlock_baton_fifo (m : AsyncMutexState) (hl : m.locked = true) :
    (∀ w rest, m.waiters = w :: rest →
        AsyncMutex.unlock m = ({ m with waiters := rest }, some w) ∧
        (AsyncMutex.unlock m).1.locked = true) ∧
    (m.waiters = [] → AsyncMutex.unlock m = ({ m with locked := false }, none)) ∧
    (∀ hnd, LockAwaiter.await_suspend m hnd
        = ({ m with waiters := m.waiters ++ [hnd] }, true)) := by
  refine ⟨?_, ?_, ?_⟩
  · intro w rest hw
    constructor
    · simp [AsyncMutex.unlock, hw]
    · simp [AsyncMutex.unlock, hw, hl]
  · intro hw
    simp [AsyncMutex.unlock, hw]
  · intro hnd
    simp [LockAwaiter.await_suspend, hl]

/-- Witness for claim C7's theorem at concrete mutex states. -/
theorem c7_unlock_baton_fifo_witness :
    (AsyncMutex.unlock ⟨true, [4, 5]⟩ = (⟨true, [5]⟩, some 4) ∧
      (AsyncMutex.unlock ⟨true, [4, 5]⟩).1.locked = true) ∧
    AsyncMutex.unlock ⟨true, []⟩ = (⟨false, []⟩, none) ∧
    LockAwaiter.await_suspend ⟨true, [4]⟩ 6 = (⟨true, [4, 6]⟩, true) :=
  ⟨(c7_unlock_baton_fifo ⟨true, [4, 5]⟩ rfl).1 4 [5] rfl,
   (c7_unlock_baton_fifo ⟨true, []⟩ rfl).2.1 rfl,
   (c7_unlock_baton_fifo ⟨true, [4]⟩ rfl).2.2 6⟩

set_option maxRecDepth 40000 in
/-- Counterexample for claim C5: starting from a fresh registered
thread, 64 consecutive retirements attempt no advancement at all — the
source triggers `try_advance` only when the counter *exceeds* 64, i.e.
on the 65th retirement (which then does attempt, as the second conjunct
shows). -/
theorem c5_counterexample_64_retirements :
    (retireN ⟨0, [⟨false, 0, [], [], [], 0⟩]⟩ 64).2 = 0 ∧
    (retireN ⟨0, [⟨false, 0, [], [], [], 0⟩]⟩ 65).2 = 1 := by decide

/-- Claim C5 as amended (advance attempted on the 65th retirement, when
the counter exceeds 64, rather than "every 64").  `retire` appends the
pointer to the caller's bin indexed by the global epoch mod 3 and bumps
the counter; an advancement attempt happens exactly when the counter
was already 64 (and resets it); `try_advance` increments the global
epoch by one and clears every registered thread's bin at index
`(new_epoch + 1) mod 3` exactly when every active thread's observed
epoch equals the global, and otherwise changes nothing. -/
theorem c5_retire_advance_amended (s : EbrState) (i p : Nat) (t : LocalEbr)
    (hget : s.threads.get? i = some t) :
    ((EbrManager.retire s i p).2.1 = true ↔ 64 ≤ t.op_count) ∧
    (t.op_count < 64 →
      EbrManager.retire s i p =
        ({ s with threads := modifyAt s.threads i (fun _ =>
             { t.setBinAt s.global_epoch (t.binAt s.global_epoch ++ [p]) with
               op_count := t.op_count + 1 }) }, false, [])) ∧
    (64 ≤ t.op_count →
      EbrManager.retire s i p =
        (let s1 : EbrState := { s with threads := modifyAt s.threads i (fun _ =>
             { t.setBinAt s.global_epoch (t.binAt s.global_epoch ++ [p]) with
               op_count := 0 }) }
         ((EbrManager.try_advance s1).1, true, (EbrManager.try_advance s1).2))) ∧
    (∀ u : EbrState,
      (u.threads.all (fun w => !w.active || w.epoch == u.global_epoch) = true →
        EbrManager.try_advance u =
          ({ global_epoch := u.global_epoch + 1,
             threads := u.threads.map (fun w => w.setBinAt ((u.global_epoch + 2) % 3) []) },
           (u.threads.map (fun w => w.binAt ((u.global_epoch + 2) % 3))).flatten)) ∧
      (u.threads.all (fun w => !w.active || w.epoch == u.global_epoch) = false →
        EbrManager.try_advance u = (u, []))) := by
  refine ⟨?_, ?_, ?_, ?_⟩
  · simp only [EbrManager.retire, hget]
    split_ifs with hgt <;> simp <;> omega
  · intro hlt
    simp only [EbrManager.retire, hget]
    rw [if_neg (by omega)]
  · intro hge
    simp only [EbrManager.retire, hget]
    rw [if_pos (by omega)]
  · intro u
    constructor
    · intro hall
      simp [EbrManager.try_advance, hall]
    · intro hnall
      simp [EbrManager.try_advance, hnall]

/-- Witness for claim C5's amended theorem at a concrete manager
state (one registered thread, counter 3, global epoch 0). -/
theorem c5_retire_advance_witness :
    EbrManager.retire ⟨0, [⟨false, 0, [], [], [], 3⟩]⟩ 0 9
      = (⟨0, [⟨false, 0, [9], [], [], 4⟩]⟩, false, []) := by
  have h := (c5_retire_advance_amended ⟨0, [⟨false, 0, [], [], [], 3⟩]⟩ 0 9
    ⟨false, 0, [], [], [], 3⟩ rfl).2.1 (by decide)
  rw [h]
  rfl

end TinyCoro
